import Mathlib

/-!
Verification of the persistence layer of the Christ In Song hymnal
(`src/christ_in_song/database/connection.py` and `schema.py`).

The SQLite database is embedded shallowly: each table is a list of row
records, `AUTOINCREMENT` columns are modelled by per-table counters kept in
the state, and `CURRENT_TIMESTAMP` is modelled by an explicit `now : Nat`
argument given to each operation that writes a timestamp.  Every public
operation of `DatabaseManager` wraps its body in `try/except Exception`,
returning a neutral sentinel when anything raises; an engine-level failure
(I/O error, lock error, ...) is modelled by a boolean `fail` argument: when
it is `true` the operation behaves as if the underlying engine raised, the
transaction is rolled back (the state is returned unchanged) and the
sentinel is returned.  SQLite's FTS5 `MATCH` is modelled by a concrete
tokenizer and conjunctive token matching, with a syntax-error case for
queries that do not tokenize; the triggers `hymns_ai`/`hymns_ad`/`hymns_au`
that keep `hymns_fts` in sync are part of the write path.
-/

namespace ChristInSong

/-- A row of the `categories` table (`schema.py`). -/
structure CategoryRow where
  id : Nat
  name : String
  description : Option String
  created_at : Nat
  deriving Repr, DecidableEq

/-- A row of the `hymns` table (`schema.py`). -/
structure Hymn where
  id : Nat
  number : Int
  title : String
  verses : String
  chorus : Option String
  category_id : Option Nat
  author : Option String
  composer : Option String
  year : Option Int
  copyright : Option String
  scripture_reference : Option String
  notes : Option String
  created_at : Nat
  updated_at : Nat
  deriving Repr, DecidableEq

/-- A row of the `hymns_fts` FTS5 virtual table: the indexed columns
`title, verses, author, composer` with `content_rowid = id`. -/
structure FtsRow where
  rowid : Nat
  title : String
  verses : String
  author : Option String
  composer : Option String
  deriving Repr, DecidableEq

/-- A row of the `favorites` table (`UNIQUE(hymn_id)` is enforced by
`INSERT OR IGNORE` in `add_favorite`). -/
structure FavoriteRow where
  id : Nat
  hymn_id : Nat
  added_at : Nat
  notes : Option String
  deriving Repr, DecidableEq

/-- A row of the append-only `recently_viewed` table. -/
structure RecentRow where
  id : Nat
  hymn_id : Nat
  viewed_at : Nat
  deriving Repr, DecidableEq

/-- A row of the `settings` table (`key` is the primary key). -/
structure SettingRow where
  key : String
  value : String
  description : Option String
  updated_at : Nat
  deriving Repr, DecidableEq

/-- A row of the `usage_stats` table (`hymn_id` is the primary key). -/
structure UsageStatRow where
  hymn_id : Nat
  view_count : Int
  last_viewed : Option Nat
  deriving Repr, DecidableEq

/-- A row of the `db_metadata` table. -/
structure MetadataRow where
  key : String
  value : String
  updated_at : Nat
  deriving Repr, DecidableEq

/-- The state of the database file.  `fileExists` tracks whether the file is
present on disk (`sqlite3.connect` creates it); `fileSize` is what
`db_path.stat().st_size` reports.  The `next_*` counters model the
`AUTOINCREMENT` primary keys. -/
structure DB where
  fileExists : Bool
  fileSize : Nat
  categories : List CategoryRow
  hymns : List Hymn
  hymns_fts : List FtsRow
  favorites : List FavoriteRow
  recently_viewed : List RecentRow
  settings : List SettingRow
  usage_stats : List UsageStatRow
  db_metadata : List MetadataRow
  next_category_id : Nat
  next_hymn_id : Nat
  next_favorite_id : Nat
  next_recent_id : Nat
  deriving Repr, DecidableEq

/-- The state before the first run: no database file, all tables empty. -/
def emptyDB : DB :=
  { fileExists := false, fileSize := 0, categories := [], hymns := [],
    hymns_fts := [], favorites := [], recently_viewed := [], settings := [],
    usage_stats := [], db_metadata := [], next_category_id := 1,
    next_hymn_id := 1, next_favorite_id := 1, next_recent_id := 1 }

/-- `DEFAULT_CATEGORIES` from `schema.py`: `(name, description)` pairs. -/
def DEFAULT_CATEGORIES : List (String × String) :=
  [("Worship and Praise", "Hymns focused on worship and praise to God"),
   ("Prayer", "Hymns about prayer and communion with God"),
   ("Faith and Trust", "Hymns about faith, trust, and reliance on God"),
   ("Love of God", "Hymns celebrating God's love"),
   ("Salvation", "Hymns about salvation and redemption"),
   ("Second Coming", "Hymns about Christ's return"),
   ("Christian Life", "Hymns about daily Christian living"),
   ("Service", "Hymns about service to God and others"),
   ("Comfort and Peace", "Hymns offering comfort and peace"),
   ("Heaven", "Hymns about heaven and eternal life"),
   ("Gospel Invitation", "Hymns extending gospel invitation"),
   ("Testimony", "Hymns of personal testimony"),
   ("Nature", "Hymns about God's creation"),
   ("Christmas", "Christmas hymns"),
   ("Easter", "Easter hymns"),
   ("Special Occasions", "Hymns for special occasions")]

/-- One entry of `SAMPLE_HYMNS` in `schema.py`. -/
structure SampleHymn where
  number : Int
  title : String
  verses : String
  chorus : Option String
  category : String
  author : Option String
  composer : Option String
  year : Option Int
  scripture_reference : Option String
  deriving Repr, DecidableEq

/-- `SAMPLE_HYMNS` from `schema.py`: the three seed hymns with their full
verse text (newlines written as escapes). -/
def SAMPLE_HYMNS : List SampleHymn :=
  [{ number := 1, title := "Holy, Holy, Holy",
     verses := "1. Holy, holy, holy! Lord God Almighty!\nEarly in the morning our song shall rise to Thee;\nHoly, holy, holy! Merciful and mighty!\nGod in three Persons, blessèd Trinity!\n\n2. Holy, holy, holy! All the saints adore Thee,\nCasting down their golden crowns around the glassy sea;\nCherubim and seraphim falling down before Thee,\nWhich wert, and art, and evermore shalt be.\n\n3. Holy, holy, holy! Though the darkness hide Thee,\nThough the eye of sinful man Thy glory may not see,\nOnly Thou art holy; there is none beside Thee\nPerfect in power, in love, and purity.\n\n4. Holy, holy, holy! Lord God Almighty!\nAll Thy works shall praise Thy name in earth and sky and sea;\nHoly, holy, holy! Merciful and mighty!\nGod in three Persons, blessèd Trinity!",
     chorus := none, category := "Worship and Praise",
     author := some "Reginald Heber", composer := some "John B. Dykes",
     year := some 1826, scripture_reference := some "Revelation 4:8" },
   { number := 2, title := "Amazing Grace",
     verses := "1. Amazing grace! How sweet the sound\nThat saved a wretch like me!\nI once was lost, but now am found,\nWas blind, but now I see.\n\n2. 'Twas grace that taught my heart to fear,\nAnd grace my fears relieved;\nHow precious did that grace appear\nThe hour I first believed!\n\n3. Through many dangers, toils and snares,\nI have already come;\n'Tis grace hath brought me safe thus far,\nAnd grace will lead me home.\n\n4. When we've been there ten thousand years,\nBright shining as the sun,\nWe've no less days to sing God's praise\nThan when we'd first begun.",
     chorus := none, category := "Salvation",
     author := some "John Newton", composer := some "Traditional",
     year := some 1779, scripture_reference := some "Ephesians 2:8" },
   { number := 3, title := "What a Friend We Have in Jesus",
     verses := "1. What a friend we have in Jesus,\nAll our sins and griefs to bear!\nWhat a privilege to carry\nEverything to God in prayer!\nO what peace we often forfeit,\nO what needless pain we bear,\nAll because we do not carry\nEverything to God in prayer!\n\n2. Have we trials and temptations?\nIs there trouble anywhere?\nWe should never be discouraged;\nTake it to the Lord in prayer.\nCan we find a friend so faithful\nWho will all our sorrows share?\nJesus knows our every weakness;\nTake it to the Lord in prayer.\n\n3. Are we weak and heavy laden,\nCumbered with a load of care?\nPrecious Savior, still our refuge,\nTake it to the Lord in prayer.\nDo thy friends despise, forsake thee?\nTake it to the Lord in prayer!\nIn His arms He'll take and shield thee;\nThou wilt find a solace there.",
     chorus := none, category := "Prayer",
     author := some "Joseph M. Scriven", composer := some "Charles C. Converse",
     year := some 1855, scripture_reference := some "John 15:15" }]

/-- `DEFAULT_SETTINGS` from `schema.py`: `(key, value, description)`. -/
def DEFAULT_SETTINGS : List (String × String × String) :=
  [("theme", "light", "Application theme (light/dark)"),
   ("font_size", "12", "Default font size for hymn display"),
   ("show_hymn_numbers", "true", "Show hymn numbers in lists"),
   ("auto_backup", "true", "Automatic backup enabled"),
   ("backup_frequency", "7", "Backup frequency in days"),
   ("presentation_font_size", "24", "Font size for presentation mode"),
   ("recent_hymns_limit", "50", "Number of recent hymns to keep")]

/-! ### Schema execution and seeding (`initialize_database`) -/

/-- The `INSERT OR IGNORE INTO db_metadata` statements at the end of the
`SCHEMA` script: insert the `version` and `created_at` rows when absent.
The `CREATE TABLE IF NOT EXISTS` / `CREATE INDEX IF NOT EXISTS` /
`CREATE TRIGGER IF NOT EXISTS` statements leave existing tables and their
rows untouched, so they contribute nothing to the state. -/
def execSchema (now : Nat) (db : DB) : DB :=
  let db1 :=
    if db.db_metadata.any (fun r => r.key == "version") then db
    else { db with db_metadata := db.db_metadata ++ [⟨"version", "1.0.0", now⟩] }
  if db1.db_metadata.any (fun r => r.key == "created_at") then db1
  else { db1 with db_metadata := db1.db_metadata ++ [⟨"created_at", toString now, now⟩] }

/-- The FTS row the `hymns_ai` trigger inserts for a new hymn row. -/
def hymnToFts (h : Hymn) : FtsRow :=
  ⟨h.id, h.title, h.verses, h.author, h.composer⟩

/-- `INSERT INTO categories (name, description) VALUES (?, ?)` for one
default category. -/
def insertCategory (now : Nat) (db : DB) (c : String × String) : DB :=
  { db with
    categories := db.categories ++ [⟨db.next_category_id, c.1, some c.2, now⟩],
    next_category_id := db.next_category_id + 1 }

/-- Seeding one sample hymn: look up its category id by name, insert the
hymn row (columns `copyright` and `notes` are not in the INSERT column list
and stay NULL), and fire the `hymns_ai` trigger into `hymns_fts`. -/
def insertHymn (now : Nat) (db : DB) (s : SampleHymn) : DB :=
  let category_id := (db.categories.find? (fun c => c.name == s.category)).map (fun c => c.id)
  let h : Hymn :=
    { id := db.next_hymn_id, number := s.number, title := s.title,
      verses := s.verses, chorus := s.chorus, category_id := category_id,
      author := s.author, composer := s.composer, year := s.year,
      copyright := none, scripture_reference := s.scripture_reference,
      notes := none, created_at := now, updated_at := now }
  { db with
    hymns := db.hymns ++ [h],
    hymns_fts := db.hymns_fts ++ [hymnToFts h],
    next_hymn_id := db.next_hymn_id + 1 }

/-- `INSERT INTO settings (key, value, description) VALUES (?, ?, ?)` for
one default setting. -/
def insertSetting (now : Nat) (db : DB) (s : String × String × String) : DB :=
  { db with settings := db.settings ++ [⟨s.1, s.2.1, some s.2.2, now⟩] }

/-- `DatabaseManager.initialize_database`.  `is_new_db` is read from the
file's existence before connecting; connecting creates the file; the schema
script always runs; seeding runs only on a new database.  Any exception is
caught and converted to `false`, with the transaction rolled back (but the
file, created by `connect`, remains). -/
def initialize_database (fail : Bool) (now : Nat) (db : DB) : Bool × DB :=
  let is_new_db := !db.fileExists
  if fail then (false, { db with fileExists := true })
  else
    let db1 := execSchema now { db with fileExists := true }
    if is_new_db then
      let db2 := DEFAULT_CATEGORIES.foldl (insertCategory now) db1
      let db3 := SAMPLE_HYMNS.foldl (insertHymn now) db2
      let db4 := DEFAULT_SETTINGS.foldl (insertSetting now) db3
      (true, db4)
    else (true, db1)

/-! ### The FTS5 query model -/

/-- A full-text error or any other engine-level error raised inside an
operation's body. -/
inductive DBError where
  | engineFailure : DBError
  | ftsSyntaxError : DBError
  deriving Repr, DecidableEq

/-- Maximal alphanumeric runs of a character list, lower-cased (`acc` is
the current run, reversed). -/
def tokenizeChars : List Char → List Char → List String
  | [], acc => if acc.isEmpty then [] else [String.mk acc.reverse]
  | c :: rest, acc =>
    if c.isAlphanum then tokenizeChars rest (c.toLower :: acc)
    else if acc.isEmpty then tokenizeChars rest []
    else String.mk acc.reverse :: tokenizeChars rest []

/-- Lower-case word tokenizer standing for FTS5's unicode61 tokenizer. -/
def ftsTokenize (s : String) : List String := tokenizeChars s.data []

/-- Parsing the `MATCH` argument.  Queries holding FTS5 operator
characters are modelled as syntax errors (FTS5 rejects stray punctuation
such as quotes and parentheses), as is a query with no token at all
(FTS5 reports `fts5: syntax error`). -/
def ftsParseQuery (q : String) : Except DBError (List String) :=
  if q.data.any (fun c => !(c.isAlphanum || c == ' ')) then .error .ftsSyntaxError
  else
    match ftsTokenize q with
    | [] => .error .ftsSyntaxError
    | ts => .ok ts

/-- A parsed query matches an FTS row when every query token occurs among
the tokens of the indexed columns `title, verses, author, composer`. -/
def ftsRowMatch (ts : List String) (r : FtsRow) : Bool :=
  let rowTokens :=
    ftsTokenize r.title ++ ftsTokenize r.verses ++
    ftsTokenize (r.author.getD "") ++ ftsTokenize (r.composer.getD "")
  ts.all (fun t => rowTokens.contains t)

/-! ### Result-row shapes and ordering -/

/-- The result row of the hymn queries: `h.*` plus
`c.name as category_name` from the LEFT JOIN. -/
structure HymnView where
  hymn : Hymn
  category_name : Option String
  deriving Repr, DecidableEq

/-- The result row of `get_favorites`: adds `f.added_at`. -/
structure FavoriteView where
  hymn : Hymn
  category_name : Option String
  added_at : Nat
  deriving Repr, DecidableEq

/-- The result row of `get_recently_viewed`: adds `r.viewed_at`. -/
structure RecentView where
  hymn : Hymn
  category_name : Option String
  viewed_at : Nat
  deriving Repr, DecidableEq

/-- The result row of `get_categories`: `c.*` plus
`COUNT(h.id) as hymn_count`. -/
structure CategoryView where
  cat : CategoryRow
  hymn_count : Nat
  deriving Repr, DecidableEq

/-- `ORDER BY h.number` (ascending). -/
def HymnView.numLE (a b : HymnView) : Prop := a.hymn.number ≤ b.hymn.number

instance : DecidableRel HymnView.numLE :=
  fun a b => inferInstanceAs (Decidable (a.hymn.number ≤ b.hymn.number))

instance : IsTotal HymnView HymnView.numLE :=
  ⟨fun a b => Int.le_total a.hymn.number b.hymn.number⟩

instance : IsTrans HymnView HymnView.numLE :=
  ⟨fun _ _ _ h1 h2 => le_trans h1 h2⟩

/-- `ORDER BY f.added_at DESC`. -/
def FavoriteView.addedGE (a b : FavoriteView) : Prop := b.added_at ≤ a.added_at

instance : DecidableRel FavoriteView.addedGE :=
  fun a b => inferInstanceAs (Decidable (b.added_at ≤ a.added_at))

instance : IsTotal FavoriteView FavoriteView.addedGE :=
  ⟨fun a b => (Nat.le_total b.added_at a.added_at)⟩

instance : IsTrans FavoriteView FavoriteView.addedGE :=
  ⟨fun _ _ _ h1 h2 => le_trans h2 h1⟩

/-- `ORDER BY r.viewed_at DESC`. -/
def RecentView.viewedGE (a b : RecentView) : Prop := b.viewed_at ≤ a.viewed_at

instance : DecidableRel RecentView.viewedGE :=
  fun a b => inferInstanceAs (Decidable (b.viewed_at ≤ a.viewed_at))

instance : IsTotal RecentView RecentView.viewedGE :=
  ⟨fun a b => (Nat.le_total b.viewed_at a.viewed_at)⟩

instance : IsTrans RecentView RecentView.viewedGE :=
  ⟨fun _ _ _ h1 h2 => le_trans h2 h1⟩

/-- `ORDER BY c.name` (ascending). -/
def CategoryView.nameLE (a b : CategoryView) : Prop := a.cat.name ≤ b.cat.name

instance : DecidableRel CategoryView.nameLE :=
  fun a b => inferInstanceAs (Decidable (a.cat.name ≤ b.cat.name))

instance : IsTotal CategoryView CategoryView.nameLE :=
  ⟨fun a b => le_total a.cat.name b.cat.name⟩

instance : IsTrans CategoryView CategoryView.nameLE :=
  ⟨fun _ _ _ h1 h2 => le_trans h1 h2⟩

/-! ### The read operations -/

/-- `LEFT JOIN categories c ON h.category_id = c.id` for one hymn row:
the category name, or NULL when `category_id` is NULL or dangling. -/
def categoryName (db : DB) (cid : Option Nat) : Option String :=
  cid.bind (fun c => (db.categories.find? (fun r => r.id == c)).map (fun r => r.name))

/-- `SELECT h.*, c.name as category_name FROM hymns h LEFT JOIN categories c`
(one result row per hymn row, in table order; `ORDER BY` is applied by the
callers). -/
def joinHymns (db : DB) : List HymnView :=
  db.hymns.map (fun h => ⟨h, categoryName db h.category_id⟩)

/-- `DatabaseManager.get_hymn_by_number`: `WHERE h.number = ?`, `fetchone`;
`None` when absent, the sentinel `None` on any engine failure. -/
def get_hymn_by_number (fail : Bool) (number : Int) (db : DB) : Option HymnView :=
  if fail then none
  else (joinHymns db).find? (fun v => v.hymn.number == number)

/-- `DatabaseManager.search_hymns`: hymns whose id is a `hymns_fts` rowid
matching the query, `ORDER BY h.number`; `[]` when the engine fails or the
`MATCH` argument is malformed (the raised `sqlite3.OperationalError` is
caught by the `except` block). -/
def search_hymns (fail : Bool) (query : String) (db : DB) : List HymnView :=
  if fail then []
  else
    match ftsParseQuery query with
    | .error _ => []
    | .ok ts =>
      let ids := (db.hymns_fts.filter (ftsRowMatch ts)).map (fun r => r.rowid)
      List.insertionSort HymnView.numLE
        ((joinHymns db).filter (fun v => ids.contains v.hymn.id))

/-- `DatabaseManager.get_all_hymns`: `ORDER BY h.number`, with
`" LIMIT {limit}"` appended only when `limit` is truthy (so `None` and `0`
both mean no cap); SQLite treats a negative `LIMIT` as no cap. -/
def get_all_hymns (fail : Bool) (limit : Option Int) (db : DB) : List HymnView :=
  if fail then []
  else
    let rows := List.insertionSort HymnView.numLE (joinHymns db)
    match limit with
    | none => rows
    | some n => if n == 0 then rows else if n < 0 then rows else rows.take n.toNat

/-- `DatabaseManager.get_favorites`: favorites inner-joined to hymns,
left-joined to categories, `ORDER BY f.added_at DESC`. -/
def get_favorites (fail : Bool) (db : DB) : List FavoriteView :=
  if fail then []
  else
    let rows := db.favorites.filterMap (fun f =>
      (db.hymns.find? (fun h => h.id == f.hymn_id)).map (fun h =>
        FavoriteView.mk h (categoryName db h.category_id) f.added_at))
    List.insertionSort FavoriteView.addedGE rows

/-- `DatabaseManager.is_favorite`: `COUNT(*) > 0` over the matching rows;
`False` as the failure sentinel. -/
def is_favorite (fail : Bool) (hymn_id : Nat) (db : DB) : Bool :=
  if fail then false
  else decide (0 < db.favorites.countP (fun f => f.hymn_id == hymn_id))

/-- `DatabaseManager.get_recently_viewed`: `SELECT DISTINCT h.*, c.name,
r.viewed_at` joined through the view log, `ORDER BY r.viewed_at DESC
LIMIT ?`.  `DISTINCT` de-duplicates whole result rows — `viewed_at`
included. -/
def get_recently_viewed (fail : Bool) (limit : Int) (db : DB) : List RecentView :=
  if fail then []
  else
    let rows := db.recently_viewed.filterMap (fun r =>
      (db.hymns.find? (fun h => h.id == r.hymn_id)).map (fun h =>
        RecentView.mk h (categoryName db h.category_id) r.viewed_at))
    let rows := List.insertionSort RecentView.viewedGE rows.dedup
    if limit < 0 then rows else rows.take limit.toNat

/-- `DatabaseManager.get_categories`: `COUNT(h.id)` per category via the
LEFT JOIN and `GROUP BY c.id`, `ORDER BY c.name`. -/
def get_categories (fail : Bool) (db : DB) : List CategoryView :=
  if fail then []
  else
    let rows := db.categories.map (fun c =>
      CategoryView.mk c (db.hymns.countP (fun h => h.category_id == some c.id)))
    List.insertionSort CategoryView.nameLE rows

/-- `DatabaseManager.get_hymns_by_category`: `WHERE h.category_id = ?`,
`ORDER BY h.number`. -/
def get_hymns_by_category (fail : Bool) (category_id : Nat) (db : DB) : List HymnView :=
  if fail then []
  else
    List.insertionSort HymnView.numLE
      ((joinHymns db).filter (fun v => v.hymn.category_id == some category_id))

/-- `DatabaseManager.get_setting`: `SELECT value FROM settings WHERE
key = ?`, `fetchone`; `None` when absent or on failure. -/
def get_setting (fail : Bool) (key : String) (db : DB) : Option String :=
  if fail then none
  else (db.settings.find? (fun r => r.key == key)).map (fun r => r.value)

/-- The value kinds in the `get_database_stats` result dictionary. -/
inductive StatVal where
  | num : Nat → StatVal
  | str : String → StatVal
  deriving Repr, DecidableEq

/-- `DatabaseManager.get_database_stats`: a dictionary built in insertion
order with string keys as written in the source.  `db_path.stat()` raises
when the file is absent and `fetchone()["value"]` raises when `db_metadata`
has no `version` row; either way the `except` block returns `{}`. -/
def get_database_stats (fail : Bool) (db : DB) : List (String × StatVal) :=
  if fail then []
  else if !db.fileExists then []
  else
    match db.db_metadata.find? (fun r => r.key == "version") with
    | none => []
    | some m =>
      [("total_hymns", .num db.hymns.length),
       ("total_categories", .num db.categories.length),
       ("total_favorites", .num db.favorites.length),
       ("database_size", .num db.fileSize),
       ("database_version", .str m.value)]

/-! ### The write operations -/

/-- `DatabaseManager.add_favorite`: `INSERT OR IGNORE INTO favorites
(hymn_id) VALUES (?)`; the return value is `cursor.rowcount > 0`, so `True`
exactly when the UNIQUE(hymn_id) constraint did not suppress the insert.
`False` (state unchanged) on engine failure. -/
def add_favorite (fail : Bool) (now : Nat) (hymn_id : Nat) (db : DB) : Bool × DB :=
  if fail then (false, db)
  else if db.favorites.any (fun f => f.hymn_id == hymn_id) then (false, db)
  else
    (true,
      { db with
        favorites := db.favorites ++ [⟨db.next_favorite_id, hymn_id, now, none⟩],
        next_favorite_id := db.next_favorite_id + 1 })

/-- `DatabaseManager.remove_favorite`: `DELETE FROM favorites WHERE
hymn_id = ?`; returns `cursor.rowcount > 0`, i.e. whether any row was
deleted.  `False` (state unchanged) on engine failure. -/
def remove_favorite (fail : Bool) (hymn_id : Nat) (db : DB) : Bool × DB :=
  if fail then (false, db)
  else
    (decide (0 < db.favorites.countP (fun f => f.hymn_id == hymn_id)),
      { db with favorites := db.favorites.filter (fun f => !(f.hymn_id == hymn_id)) })

/-- The `INSERT ... ON CONFLICT(hymn_id) DO UPDATE` upsert on
`usage_stats`: initialize `view_count` to 1, or increment it and refresh
`last_viewed`. -/
def upsertUsage (now : Nat) (hymn_id : Nat) (db : DB) : DB :=
  if db.usage_stats.any (fun r => r.hymn_id == hymn_id) then
    { db with
      usage_stats := db.usage_stats.map (fun r =>
        if r.hymn_id == hymn_id then
          { r with view_count := r.view_count + 1, last_viewed := some now }
        else r) }
  else
    { db with usage_stats := db.usage_stats ++ [⟨hymn_id, 1, some now⟩] }

/-- `DatabaseManager.add_recently_viewed`: append a log row, upsert the
usage counter, both inside the one transaction of `get_connection` —
on failure the rollback leaves the state unchanged and `False` is
returned. -/
def add_recently_viewed (fail : Bool) (now : Nat) (hymn_id : Nat) (db : DB) : Bool × DB :=
  if fail then (false, db)
  else
    let db1 :=
      { db with
        recently_viewed := db.recently_viewed ++ [⟨db.next_recent_id, hymn_id, now⟩],
        next_recent_id := db.next_recent_id + 1 }
    (true, upsertUsage now hymn_id db1)

/-- `DatabaseManager.set_setting`: `INSERT ... ON CONFLICT(key) DO UPDATE
SET value = excluded.value, updated_at = CURRENT_TIMESTAMP`; `True` on
success, `False` (state unchanged) on engine failure. -/
def set_setting (fail : Bool) (now : Nat) (key value : String) (db : DB) : Bool × DB :=
  if fail then (false, db)
  else if db.settings.any (fun r => r.key == key) then
    (true,
      { db with
        settings := db.settings.map (fun r =>
          if r.key == key then { r with value := value, updated_at := now } else r) })
  else
    (true, { db with settings := db.settings ++ [⟨key, value, none, now⟩] })

/-- The database state after a successful first-run initialization at
time 0. -/
def seededDB : DB := (initialize_database false 0 emptyDB).2

/-! ### Shared lemmas -/

/-- `find?` on a key-equality predicate returns the looked-up element when
the keys of the list are pairwise distinct. -/
theorem find_of_key_nodup {α β : Type} [DecidableEq β] (key : α → β) :
    ∀ (l : List α) (a : α), (l.map key).Nodup → a ∈ l →
      l.find? (fun x => key x == key a) = some a := by
  intro l a hn ha
  induction l with
  | nil => cases ha
  | cons b t ih =>
    simp only [List.map_cons, List.nodup_cons] at hn
    rcases List.mem_cons.mp ha with rfl | hat
    · exact List.find?_cons_of_pos _ (by simp)
    · have hkey : key b ≠ key a := fun h => hn.1 (h ▸ List.mem_map_of_mem key hat)
      rw [List.find?_cons_of_neg _ (by simp [hkey])]
      exact ih hn.2 hat

/-! ### C1 -/

/-- C1: every public operation of the persistence layer catches any
internal failure inside its own `try/except` and returns the neutral
sentinel of its result type — `none`, `[]`, `false` or the empty record —
with the transaction rolled back, instead of propagating an exception.
The operations are total Lean functions (no exception can escape by type)
and on an engine failure each returns its sentinel and leaves the state
unchanged. -/
theorem persistence_ops_never_raise (db : DB) (number : Int) (query : String)
    (limit : Option Int) (rlimit : Int) (category_id hymn_id : Nat)
    (key value : String) (now : Nat) :
    get_hymn_by_number true number db = none ∧
    search_hymns true query db = [] ∧
    get_all_hymns true limit db = [] ∧
    get_favorites true db = [] ∧
    add_favorite true now hymn_id db = (false, db) ∧
    remove_favorite true hymn_id db = (false, db) ∧
    is_favorite true hymn_id db = false ∧
    add_recently_viewed true now hymn_id db = (false, db) ∧
    get_recently_viewed true rlimit db = [] ∧
    get_categories true db = [] ∧
    get_hymns_by_category true category_id db = [] ∧
    get_setting true key db = none ∧
    set_setting true now key value db = (false, db) ∧
    get_database_stats true db = [] :=
  ⟨rfl, rfl, rfl, rfl, rfl, rfl, rfl, rfl, rfl, rfl, rfl, rfl, rfl, rfl⟩

/-! ### C9 -/

/-- C9: settings round trip with upsert semantics.  After a successful
`set_setting key value`, `get_setting key` returns that value whether the
key existed before (UPDATE branch of the upsert) or not (INSERT branch);
and a key with no settings row reads as `none`. -/
theorem set_get_setting_roundtrip (db : DB) (key value : String) (now : Nat) :
    (set_setting false now key value db).1 = true ∧
    get_setting false key (set_setting false now key value db).2 = some value ∧
    ((∀ r ∈ db.settings, r.key ≠ key) → get_setting false key db = none) := by
  have hget : ∀ d : DB, get_setting false key d
      = (d.settings.find? (fun s => s.key == key)).map (fun s => s.value) := by
    intro d
    unfold get_setting
    rw [if_neg Bool.false_ne_true]
  refine ⟨?_, ?_, fun h => ?_⟩
  · unfold set_setting
    rw [if_neg Bool.false_ne_true]
    by_cases hA : db.settings.any (fun r => r.key == key) = true
    · rw [if_pos hA]
    · rw [if_neg hA]
  · by_cases hA : db.settings.any (fun r => r.key == key) = true
    · obtain ⟨r, hr, hp⟩ := List.any_eq_true.mp hA
      have hsome : (db.settings.find? (fun s => s.key == key)).isSome :=
        List.find?_isSome.mpr ⟨r, hr, hp⟩
      obtain ⟨r0, hr0⟩ := Option.isSome_iff_exists.mp hsome
      have hp0 := List.find?_some hr0
      simp only [] at hp0
      have hcomp : ((fun s : SettingRow => s.key == key) ∘
          (fun s : SettingRow => if s.key == key then
             { s with value := value, updated_at := now } else s))
          = (fun s : SettingRow => s.key == key) := by
        funext s
        by_cases hk : s.key = key <;> simp [hk]
      have hset : (set_setting false now key value db).2.settings
          = db.settings.map (fun s =>
              if s.key == key then { s with value := value, updated_at := now } else s) := by
        unfold set_setting
        rw [if_neg Bool.false_ne_true, if_pos hA]
      rw [hget, hset, List.find?_map, hcomp, hr0]
      have hk0 : r0.key = key := by simpa using hp0
      simp [hk0]
    · have hA2 : (db.settings.any fun r => r.key == key) = false := by
        rwa [Bool.not_eq_true] at hA
      have hnone : db.settings.find? (fun s => s.key == key) = none :=
        List.find?_eq_none.mpr (List.any_eq_false.mp hA2)
      have hset : (set_setting false now key value db).2.settings
          = db.settings ++ [⟨key, value, none, now⟩] := by
        unfold set_setting
        rw [if_neg Bool.false_ne_true, if_neg hA]
      rw [hget, hset, List.find?_append, hnone]
      simp
  · have hnone : db.settings.find? (fun s => s.key == key) = none :=
      List.find?_eq_none.mpr (fun s hs => by simp [h s hs])
    rw [hget, hnone]
    rfl

/-- A concrete hymn row (id 1, number 1) used by the concrete witness
states. -/
def holyHymn : Hymn :=
  { id := 1, number := 1, title := "Holy, Holy, Holy",
    verses := "v", chorus := none, category_id := some 1,
    author := some "Reginald Heber", composer := some "John B. Dykes",
    year := some 1826, copyright := none,
    scripture_reference := some "Revelation 4:8", notes := none,
    created_at := 0, updated_at := 0 }

/-- A small concrete database used to instantiate the theorems with
hypotheses: one hymn (id 1, number 1), one seeded setting, no favorites,
no views. -/
def witnessDB : DB :=
  { fileExists := true, fileSize := 4096,
    categories := [⟨1, "Worship and Praise",
      some "Hymns focused on worship and praise to God", 0⟩],
    hymns := [holyHymn],
    hymns_fts := [hymnToFts holyHymn],
    favorites := [], recently_viewed := [],
    settings := [⟨"theme", "light", some "Application theme (light/dark)", 0⟩],
    usage_stats := [], db_metadata := [⟨"version", "1.0.0", 0⟩],
    next_category_id := 2, next_hymn_id := 2, next_favorite_id := 1,
    next_recent_id := 1 }

/-- Witness for C9 at a concrete state: updating the existing `theme` key
reads back `dark`, and a key that was never set reads as `none`. -/
theorem set_get_setting_roundtrip_witness :
    (set_setting false 9 "theme" "dark" witnessDB).1 = true ∧
    get_setting false "theme" (set_setting false 9 "theme" "dark" witnessDB).2
      = some "dark" ∧
    get_setting false "missing" witnessDB = none := by
  have h1 := set_get_setting_roundtrip witnessDB "theme" "dark" 9
  have h2 := set_get_setting_roundtrip witnessDB "missing" "x" 9
  exact ⟨h1.1, h1.2.1, h2.2.2 (by decide)⟩

/-! ### C10 -/

/-- C10: `get_all_hymns` applies the `LIMIT` clause only when the limit
argument is truthy, so a limit of 0 behaves like no limit at all: it
returns one row per hymn, ordered by hymn number ascending, while a
positive limit n caps the result at n rows. -/
theorem get_all_hymns_zero_limit (db : DB) (n : Int) :
    get_all_hymns false (some 0) db = get_all_hymns false none db ∧
    (get_all_hymns false (some 0) db).length = db.hymns.length ∧
    (∀ h ∈ db.hymns, ∃ v ∈ get_all_hymns false (some 0) db, v.hymn = h) ∧
    List.Sorted HymnView.numLE (get_all_hymns false (some 0) db) ∧
    (0 < n → (get_all_hymns false (some n) db).length ≤ n.toNat) := by
  have hrows : get_all_hymns false (some 0) db
      = List.insertionSort HymnView.numLE (joinHymns db) := rfl
  refine ⟨rfl, ?_, ?_, ?_, fun hn => ?_⟩
  · rw [hrows, List.length_insertionSort, joinHymns, List.length_map]
  · intro h hmem
    refine ⟨⟨h, categoryName db h.category_id⟩, ?_, rfl⟩
    rw [hrows, List.mem_insertionSort]
    exact List.mem_map_of_mem _ hmem
  · rw [hrows]
    exact List.sorted_insertionSort _ _
  · have h0 : (n == 0) = false := by
      rw [beq_eq_false_iff_ne]
      omega
    have h1 : ¬ n < 0 := by omega
    unfold get_all_hymns
    rw [if_neg Bool.false_ne_true]
    simp only [h0, Bool.false_eq_true, if_false, if_neg h1]
    exact List.length_take_le _ _

/-- Witness for C10 at the seeded database: limit 0 returns all three
hymns, limit 2 returns two. -/
theorem get_all_hymns_zero_limit_witness :
    (get_all_hymns false (some 0) seededDB).length = seededDB.hymns.length ∧
    (get_all_hymns false (some 2) seededDB).length ≤ (2 : Int).toNat := by
  have h := get_all_hymns_zero_limit seededDB 2
  exact ⟨h.2.1, h.2.2.2.2 (by decide)⟩

/-! ### C3 -/

/-- C3: `add_favorite` is idempotent.  When the hymn has no favorites row
the `INSERT OR IGNORE` inserts exactly one row and `rowcount > 0` makes the
call return `true`; when a row already exists the insert is suppressed, the
table is unchanged and the call returns `false`; and the at-most-one-row
per `hymn_id` invariant is preserved by every call. -/
theorem add_favorite_idempotent (db : DB) (hymn_id now : Nat) :
    ((db.favorites.any fun f => f.hymn_id == hymn_id) = false →
      (add_favorite false now hymn_id db).1 = true ∧
      (add_favorite false now hymn_id db).2.favorites
        = db.favorites ++ [⟨db.next_favorite_id, hymn_id, now, none⟩]) ∧
    ((db.favorites.any fun f => f.hymn_id == hymn_id) = true →
      add_favorite false now hymn_id db = (false, db)) ∧
    ((∀ x, db.favorites.countP (fun f => f.hymn_id == x) ≤ 1) →
      ∀ x, (add_favorite false now hymn_id db).2.favorites.countP
             (fun f => f.hymn_id == x) ≤ 1) := by
  refine ⟨fun hA => ?_, fun hA => ?_, fun hinv x => ?_⟩
  · unfold add_favorite
    rw [if_neg Bool.false_ne_true, if_neg (by rw [hA]; exact Bool.false_ne_true)]
    exact ⟨rfl, rfl⟩
  · unfold add_favorite
    rw [if_neg Bool.false_ne_true, if_pos hA]
  · unfold add_favorite
    rw [if_neg Bool.false_ne_true]
    by_cases hA : (db.favorites.any fun f => f.hymn_id == hymn_id) = true
    · rw [if_pos hA]
      exact hinv x
    · rw [if_neg hA]
      have hA2 : (db.favorites.any fun f => f.hymn_id == hymn_id) = false := by
        rwa [Bool.not_eq_true] at hA
      simp only [List.countP_append]
      by_cases hx : hymn_id = x
      · subst hx
        have hz : db.favorites.countP (fun f => f.hymn_id == hymn_id) = 0 :=
          List.countP_eq_zero.mpr (List.any_eq_false.mp hA2)
        simp [hz, List.countP_cons]
      · have : (⟨db.next_favorite_id, hymn_id, now, none⟩ : FavoriteRow).hymn_id ≠ x := hx
        simp only [List.countP_cons, List.countP_nil]
        have hb : ((⟨db.next_favorite_id, hymn_id, now, none⟩ : FavoriteRow).hymn_id == x)
            = false := by
          rw [beq_eq_false_iff_ne]
          exact hx
        simp [hb]
        exact hinv x

/-- Witness for C3: on the concrete state, a first `add_favorite 1`
inserts one row and returns `true`; on the resulting state a second
`add_favorite 1` is a no-op returning `false`; the one-row invariant holds
afterwards. -/
theorem add_favorite_idempotent_witness :
    ((add_favorite false 7 1 witnessDB).1 = true ∧
      (add_favorite false 7 1 witnessDB).2.favorites
        = witnessDB.favorites ++ [⟨witnessDB.next_favorite_id, 1, 7, none⟩]) ∧
    add_favorite false 8 1 (add_favorite false 7 1 witnessDB).2
      = (false, (add_favorite false 7 1 witnessDB).2) ∧
    (add_favorite false 7 1 witnessDB).2.favorites.countP
      (fun f => f.hymn_id == 1) ≤ 1 := by
  have h1 := add_favorite_idempotent witnessDB 1 7
  have h2 := add_favorite_idempotent (add_favorite false 7 1 witnessDB).2 1 8
  refine ⟨h1.1 (by decide), h2.2.1 (by decide), h1.2.2 (fun x => ?_) 1⟩
  rw [show witnessDB.favorites = [] from rfl]
  simp

/-! ### C2 -/

/-- The usage-stat rows of one hymn (`SELECT * FROM usage_stats WHERE
hymn_id = ?`). -/
def usageFor (db : DB) (hymn_id : Nat) : List UsageStatRow :=
  db.usage_stats.filter (fun r => r.hymn_id == hymn_id)

/-- `n` successive successful `add_recently_viewed` calls for the same
hymn, at times `now0, now0+1, ...`. -/
def viewsIter (now0 hymn_id : Nat) : Nat → DB → DB
  | 0, db => db
  | n + 1, db =>
    (add_recently_viewed false (now0 + n) hymn_id (viewsIter now0 hymn_id n db)).2

/-- A successful `add_recently_viewed` is the log append followed by the
usage upsert. -/
theorem arv_snd (db : DB) (now hymn_id : Nat) :
    (add_recently_viewed false now hymn_id db).2
      = upsertUsage now hymn_id
          { db with
            recently_viewed := db.recently_viewed ++ [⟨db.next_recent_id, hymn_id, now⟩],
            next_recent_id := db.next_recent_id + 1 } := by
  unfold add_recently_viewed
  rw [if_neg Bool.false_ne_true]

/-- The INSERT arm of the upsert: no prior row for the hymn, one row with
`view_count = 1` afterwards. -/
theorem usageFor_upsert_absent (db : DB) (hymn_id now : Nat)
    (h : usageFor db hymn_id = []) :
    usageFor (upsertUsage now hymn_id db) hymn_id = [⟨hymn_id, 1, some now⟩] := by
  have hall : ∀ r ∈ db.usage_stats, ¬ (r.hymn_id == hymn_id) = true :=
    List.filter_eq_nil_iff.mp h
  have hany : (db.usage_stats.any fun r => r.hymn_id == hymn_id) = false :=
    List.any_eq_false.mpr hall
  unfold upsertUsage
  rw [if_neg (by rw [hany]; exact Bool.false_ne_true)]
  unfold usageFor at h ⊢
  rw [List.filter_append, h]
  simp

/-- The UPDATE arm of the upsert: exactly one prior row for the hymn,
still exactly one row afterwards, with its counter incremented and its
`last_viewed` refreshed. -/
theorem usageFor_upsert_present (db : DB) (hymn_id now : Nat) (r : UsageStatRow)
    (h : usageFor db hymn_id = [r]) :
    usageFor (upsertUsage now hymn_id db) hymn_id
      = [{ r with view_count := r.view_count + 1, last_viewed := some now }] := by
  have hrmem : r ∈ db.usage_stats.filter (fun x => x.hymn_id == hymn_id) := by
    rw [show db.usage_stats.filter (fun x => x.hymn_id == hymn_id)
          = usageFor db hymn_id from rfl, h]
    exact List.mem_singleton.mpr rfl
  have hpr := List.of_mem_filter hrmem
  have hany : (db.usage_stats.any fun x => x.hymn_id == hymn_id) = true :=
    List.any_eq_true.mpr ⟨r, List.mem_of_mem_filter hrmem, hpr⟩
  have hcomp : ((fun x : UsageStatRow => x.hymn_id == hymn_id) ∘
      (fun x : UsageStatRow => if x.hymn_id == hymn_id then
        { x with view_count := x.view_count + 1, last_viewed := some now } else x))
      = (fun x : UsageStatRow => x.hymn_id == hymn_id) := by
    funext x
    by_cases hx : x.hymn_id = hymn_id <;> simp [hx]
  unfold upsertUsage
  rw [if_pos hany]
  unfold usageFor at h ⊢
  rw [List.filter_map, hcomp, h]
  have hk : r.hymn_id = hymn_id := by simpa using hpr
  simp [hk]

/-- The `usage_stats` table after an upsert, expressed over the incoming
table. -/
theorem upsertUsage_stats (db : DB) (now hymn_id : Nat) :
    (upsertUsage now hymn_id db).usage_stats
      = if db.usage_stats.any (fun r => r.hymn_id == hymn_id) then
          db.usage_stats.map (fun r => if r.hymn_id == hymn_id then
            { r with view_count := r.view_count + 1, last_viewed := some now } else r)
        else db.usage_stats ++ [⟨hymn_id, 1, some now⟩] := by
  unfold upsertUsage
  by_cases hc : (db.usage_stats.any fun r => r.hymn_id == hymn_id) = true
  · rw [if_pos hc, if_pos hc]
  · rw [if_neg hc, if_neg hc]

/-- The log append inside `add_recently_viewed` does not disturb the
usage-stat effect: the resulting `usage_stats` table is that of the upsert
alone. -/
theorem arv_usage_stats (db : DB) (now hymn_id : Nat) :
    (add_recently_viewed false now hymn_id db).2.usage_stats
      = (upsertUsage now hymn_id db).usage_stats := by
  rw [arv_snd, upsertUsage_stats, upsertUsage_stats]

/-- After `n ≥ 1` successful views from a state with no usage row, the
hymn has exactly one usage row and its counter is `n`. -/
theorem viewsIter_usage (hymn_id now0 : Nat) :
    ∀ (n : Nat) (db : DB), 0 < n → usageFor db hymn_id = [] →
      ∃ t, usageFor (viewsIter now0 hymn_id n db) hymn_id
        = [⟨hymn_id, (n : Int), t⟩] := by
  intro n
  induction n with
  | zero => exact fun db h0 _ => absurd h0 (lt_irrefl 0)
  | succ n ih =>
    intro db _ hempty
    have hstep : usageFor (viewsIter now0 hymn_id (n + 1) db) hymn_id
        = usageFor (upsertUsage (now0 + n) hymn_id (viewsIter now0 hymn_id n db))
            hymn_id := by
      rw [viewsIter]
      unfold usageFor
      rw [arv_usage_stats]
    rw [hstep]
    by_cases hn : 0 < n
    · obtain ⟨t, ht⟩ := ih db hn hempty
      refine ⟨some (now0 + n), ?_⟩
      rw [usageFor_upsert_present _ _ _ _ ht]
      norm_num
    · have hn0 : n = 0 := by omega
      subst hn0
      refine ⟨some (now0 + 0), ?_⟩
      have h0 : viewsIter now0 hymn_id 0 db = db := rfl
      rw [h0, usageFor_upsert_absent _ _ _ hempty]
      norm_num

/-- C2: `add_recently_viewed` appends one log row and upserts the usage
counter inside a single transaction: on failure both effects are rolled
back (the state is unchanged and `false` returned); on success it returns
`true` and appends exactly one log row; and after `n ≥ 1` successful calls
for a hymn with no prior usage row there is exactly one `usage_stats` row
for it, with `view_count = n`. -/
theorem add_recently_viewed_transactional (db : DB) (hymn_id now now0 n : Nat) :
    add_recently_viewed true now hymn_id db = (false, db) ∧
    (add_recently_viewed false now hymn_id db).1 = true ∧
    (add_recently_viewed false now hymn_id db).2.recently_viewed
      = db.recently_viewed ++ [⟨db.next_recent_id, hymn_id, now⟩] ∧
    (usageFor db hymn_id = [] → 0 < n →
      (usageFor (viewsIter now0 hymn_id n db) hymn_id).map (fun r => r.view_count)
        = [(n : Int)]) := by
  refine ⟨rfl, ?_, ?_, fun hempty hn => ?_⟩
  · unfold add_recently_viewed
    rw [if_neg Bool.false_ne_true]
  · rw [arv_snd]
    unfold upsertUsage
    by_cases hc : ({ db with
        recently_viewed := db.recently_viewed ++ [⟨db.next_recent_id, hymn_id, now⟩],
        next_recent_id := db.next_recent_id + 1 } : DB).usage_stats.any
          (fun r => r.hymn_id == hymn_id) = true
    · rw [if_pos hc]
    · rw [if_neg hc]
  · obtain ⟨t, ht⟩ := viewsIter_usage hymn_id now0 n db hn hempty
    rw [ht]
    rfl

/-- Witness for C2: viewing hymn 1 twice from the concrete state leaves a
single usage row with counter 2. -/
theorem add_recently_viewed_transactional_witness :
    add_recently_viewed true 5 1 witnessDB = (false, witnessDB) ∧
    (usageFor (viewsIter 5 1 2 witnessDB) 1).map (fun r => r.view_count)
      = [(2 : Int)] := by
  have h := add_recently_viewed_transactional witnessDB 1 5 5 2
  exact ⟨h.1, h.2.2.2 (by decide) (by decide)⟩

/-! ### C8 -/

/-- C8: the favorite round trip.  From a state where hymn 1 exists (row id
1, number 1, unique ids) and the favorites table is empty: after
`add_favorite 1`, `is_favorite 1` holds and `get_favorites` is exactly one
row carrying hymn number 1; after then `remove_favorite 1`, `is_favorite 1`
is false again; and in every state `remove_favorite` returns `true` exactly
when a favorites row for the hymn existed (and was deleted). -/
theorem favorite_roundtrip (db : DB) (h1 : Hymn) (now : Nat) :
    (db.favorites = [] → h1 ∈ db.hymns → h1.id = 1 → h1.number = 1 →
      (db.hymns.map (fun h => h.id)).Nodup →
      is_favorite false 1 (add_favorite false now 1 db).2 = true ∧
      (get_favorites false (add_favorite false now 1 db).2).length = 1 ∧
      (get_favorites false (add_favorite false now 1 db).2).map
        (fun v => v.hymn.number) = [1] ∧
      (remove_favorite false 1 (add_favorite false now 1 db).2).1 = true ∧
      is_favorite false 1
        (remove_favorite false 1 (add_favorite false now 1 db).2).2 = false) ∧
    (∀ hid, (remove_favorite false hid db).1
        = db.favorites.any (fun f => f.hymn_id == hid)) := by
  constructor
  · intro hfe hmem hid1 hnum1 hnodup
    have hA : (db.favorites.any fun f => f.hymn_id == 1) = false := by
      rw [hfe]
      rfl
    have hdb1 : (add_favorite false now 1 db).2
        = { db with
            favorites := db.favorites ++ [⟨db.next_favorite_id, 1, now, none⟩],
            next_favorite_id := db.next_favorite_id + 1 } := by
      unfold add_favorite
      rw [if_neg Bool.false_ne_true, if_neg (by rw [hA]; exact Bool.false_ne_true)]
    have hfind : db.hymns.find? (fun h => h.id == 1) = some h1 := by
      have h := find_of_key_nodup (fun h : Hymn => h.id) db.hymns h1 hnodup hmem
      simp only [hid1] at h
      exact h
    have hfavs : get_favorites false (add_favorite false now 1 db).2
        = [⟨h1, categoryName db h1.category_id, now⟩] := by
      rw [hdb1]
      unfold get_favorites
      rw [if_neg Bool.false_ne_true]
      simp only [hfe, List.nil_append, List.filterMap_cons, List.filterMap_nil]
      rw [hfind]
      rfl
    refine ⟨?_, ?_, ?_, ?_, ?_⟩
    · rw [hdb1]
      unfold is_favorite
      rw [if_neg Bool.false_ne_true, hfe]
      rfl
    · rw [hfavs]
      rfl
    · rw [hfavs, List.map_singleton, hnum1]
    · rw [hdb1]
      unfold remove_favorite
      rw [if_neg Bool.false_ne_true, hfe]
      rfl
    · rw [hdb1]
      unfold remove_favorite is_favorite
      rw [if_neg Bool.false_ne_true, if_neg Bool.false_ne_true, hfe]
      rfl
  · intro hid
    unfold remove_favorite
    rw [if_neg Bool.false_ne_true]
    by_cases hA : (db.favorites.any fun f => f.hymn_id == hid) = true
    · rw [hA]
      exact decide_eq_true (List.countP_pos_iff.mpr (List.any_eq_true.mp hA))
    · have hA2 : (db.favorites.any fun f => f.hymn_id == hid) = false := by
        rwa [Bool.not_eq_true] at hA
      rw [hA2]
      have hz : db.favorites.countP (fun f => f.hymn_id == hid) = 0 :=
        List.countP_eq_zero.mpr (List.any_eq_false.mp hA2)
      rw [hz]
      rfl

/-- Witness for C8 at the concrete state: the full add / check / list /
remove / check chain on hymn 1. -/
theorem favorite_roundtrip_witness :
    (is_favorite false 1 (add_favorite false 4 1 witnessDB).2 = true ∧
      (get_favorites false (add_favorite false 4 1 witnessDB).2).length = 1 ∧
      (get_favorites false (add_favorite false 4 1 witnessDB).2).map
        (fun v => v.hymn.number) = [1] ∧
      (remove_favorite false 1 (add_favorite false 4 1 witnessDB).2).1 = true ∧
      is_favorite false 1
        (remove_favorite false 1 (add_favorite false 4 1 witnessDB).2).2 = false) ∧
    (remove_favorite false 2 witnessDB).1
      = witnessDB.favorites.any (fun f => f.hymn_id == 2) := by
  have h := favorite_roundtrip witnessDB holyHymn 4
  exact ⟨h.1 (by decide) (by decide) (by decide) (by decide) (by decide), h.2 2⟩

/-! ### C4 -/

/-- A state in which hymn 1 was viewed twice, at times 1 and 2 (exactly
what two `add_recently_viewed(1)` calls in different seconds produce). -/
def rvDB : DB :=
  { witnessDB with
    recently_viewed := [⟨1, 1, 1⟩, ⟨2, 1, 2⟩],
    next_recent_id := 3,
    usage_stats := [⟨1, 2, some 2⟩] }

/-- C4 counterexample: `SELECT DISTINCT` de-duplicates whole result rows,
and the selected columns include `r.viewed_at`, so a hymn viewed at two
different timestamps yields two result rows.  `rvDB` is reachable — it is
exactly the state two successful `add_recently_viewed(1)` calls produce —
and on it `get_recently_viewed 10` returns hymn number 1 twice, refuting
the claim that the result holds distinct hymns for every database state
and limit. -/
theorem get_recently_viewed_not_distinct :
    rvDB = viewsIter 1 1 2 witnessDB ∧
    (get_recently_viewed false 10 rvDB).map (fun v => v.hymn.number) = [1, 1] ∧
    ¬ ((get_recently_viewed false 10 rvDB).map (fun v => v.hymn.number)).Nodup ∧
    ¬ (∀ (db : DB) (limit : Int),
        ((get_recently_viewed false limit db).map (fun v => v.hymn.number)).Nodup) := by
  refine ⟨by decide, by decide, by decide, fun hclaim => ?_⟩
  have h := hclaim rvDB 10
  rw [show (get_recently_viewed false 10 rvDB).map (fun v => v.hymn.number)
        = [1, 1] from by decide] at h
  exact (by decide : ¬ (([1, 1] : List Int).Nodup)) h

/-- C4 (amended): `get_recently_viewed limit` de-duplicates only whole
result rows (hymn together with its `viewed_at`), so the same hymn
reappears once per distinct view timestamp; the rows are ordered
most-recently-viewed first and, for a non-negative limit, at most `limit`
rows are returned. -/
theorem get_recently_viewed_amended (db : DB) (limit : Int) :
    (get_recently_viewed false limit db).Nodup ∧
    List.Pairwise (fun a b => b.viewed_at ≤ a.viewed_at)
      (get_recently_viewed false limit db) ∧
    (0 ≤ limit → (get_recently_viewed false limit db).length ≤ limit.toNat) := by
  have hrows : get_recently_viewed false limit db
      = (if limit < 0 then
          List.insertionSort RecentView.viewedGE
            ((db.recently_viewed.filterMap (fun r =>
              (db.hymns.find? (fun h => h.id == r.hymn_id)).map (fun h =>
                RecentView.mk h (categoryName db h.category_id) r.viewed_at))).dedup)
         else
          (List.insertionSort RecentView.viewedGE
            ((db.recently_viewed.filterMap (fun r =>
              (db.hymns.find? (fun h => h.id == r.hymn_id)).map (fun h =>
                RecentView.mk h (categoryName db h.category_id) r.viewed_at))).dedup)).take
            limit.toNat) := by
    unfold get_recently_viewed
    rw [if_neg Bool.false_ne_true]
  have hnd : (List.insertionSort RecentView.viewedGE
      ((db.recently_viewed.filterMap (fun r =>
        (db.hymns.find? (fun h => h.id == r.hymn_id)).map (fun h =>
          RecentView.mk h (categoryName db h.category_id) r.viewed_at))).dedup)).Nodup :=
    ((List.perm_insertionSort _ _).nodup_iff).mpr (List.nodup_dedup _)
  have hsort := List.sorted_insertionSort RecentView.viewedGE
      ((db.recently_viewed.filterMap (fun r =>
        (db.hymns.find? (fun h => h.id == r.hymn_id)).map (fun h =>
          RecentView.mk h (categoryName db h.category_id) r.viewed_at))).dedup)
  rw [hrows]
  by_cases hlim : limit < 0
  · rw [if_pos hlim]
    exact ⟨hnd, hsort, fun h0 => absurd hlim (by omega)⟩
  · rw [if_neg hlim]
    exact ⟨hnd.sublist (List.take_sublist _ _),
      List.Pairwise.sublist (List.take_sublist _ _) hsort,
      fun _ => List.length_take_le _ _⟩

/-- Witness for C4's amended theorem on the concrete two-view state. -/
theorem get_recently_viewed_amended_witness :
    (get_recently_viewed false 10 rvDB).Nodup ∧
    List.Pairwise (fun a b => b.viewed_at ≤ a.viewed_at)
      (get_recently_viewed false 10 rvDB) ∧
    (get_recently_viewed false 10 rvDB).length ≤ (10 : Int).toNat := by
  have h := get_recently_viewed_amended rvDB 10
  exact ⟨h.1, h.2.1, h.2.2 (by decide)⟩

/-! ### C5 -/

/-- C5 counterexample: the stats dictionary's file-size entry is stored
under the key `database_size`, not `database_size_bytes`; on the concrete
state the returned key set is `total_hymns, total_categories,
total_favorites, database_size, database_version`, and no
`database_size_bytes` key exists. -/
theorem get_database_stats_keys_counterexample :
    (get_database_stats false witnessDB).map Prod.fst
      = ["total_hymns", "total_categories", "total_favorites",
         "database_size", "database_version"] ∧
    ¬ ("database_size_bytes" ∈ (get_database_stats false witnessDB).map Prod.fst) := by
  constructor
  · rfl
  · intro h
    rw [show (get_database_stats false witnessDB).map Prod.fst
          = ["total_hymns", "total_categories", "total_favorites",
             "database_size", "database_version"] from rfl] at h
    exact absurd h (by decide)

/-- C5 (amended): when the database file exists and the `version` metadata
row is present, `get_database_stats` returns a record with exactly the
keys `total_hymns`, `total_categories`, `total_favorites`, `database_size`
and `database_version` (in that insertion order), where the three counts
are the row counts of the `hymns`, `categories` and `favorites` tables,
the size is the database file's size and the version is the metadata
value. -/
theorem get_database_stats_amended (db : DB) (m : MetadataRow) :
    db.fileExists = true →
    db.db_metadata.find? (fun r => r.key == "version") = some m →
    get_database_stats false db
      = [("total_hymns", .num db.hymns.length),
         ("total_categories", .num db.categories.length),
         ("total_favorites", .num db.favorites.length),
         ("database_size", .num db.fileSize),
         ("database_version", .str m.value)] := by
  intro hfe hfind
  unfold get_database_stats
  rw [if_neg Bool.false_ne_true, hfe]
  rw [show (!true) = false from rfl, if_neg Bool.false_ne_true, hfind]

/-- Witness for C5's amended theorem on the concrete state. -/
theorem get_database_stats_amended_witness :
    get_database_stats false witnessDB
      = [("total_hymns", .num witnessDB.hymns.length),
         ("total_categories", .num witnessDB.categories.length),
         ("total_favorites", .num witnessDB.favorites.length),
         ("database_size", .num witnessDB.fileSize),
         ("database_version", .str "1.0.0")] :=
  get_database_stats_amended witnessDB ⟨"version", "1.0.0", 0⟩ (by decide) (by decide)

/-! ### C6 -/

/-- The schema script only ever touches `db_metadata` (the only non-`IF
NOT EXISTS` statements are the two `INSERT OR IGNORE` metadata rows): the
hymn, category and settings tables pass through unchanged. -/
theorem execSchema_preserves (now : Nat) (d : DB) :
    (execSchema now d).hymns = d.hymns ∧
    (execSchema now d).categories = d.categories ∧
    (execSchema now d).settings = d.settings := by
  refine ⟨?_, ?_, ?_⟩ <;> (unfold execSchema; dsimp only []; split <;> split <;> rfl)

/-- C6: on a first run (file absent) `initialize_database` creates the
schema and seeds the default data — at least 3 hymns, at least 10
categories, and hymn number 1 titled "Holy, Holy, Holy" — returning
`true`; on a subsequent run (file present) it re-applies the idempotent
schema without re-seeding, leaving the hymn, category and settings rows
unchanged and returning `true`; and any exception during initialization is
caught and converted to `false` (the file, created by `connect`, remains;
the transaction is rolled back). -/
theorem initialize_database_spec (db : DB) (now : Nat) :
    ((initialize_database false 0 emptyDB).1 = true ∧
      3 ≤ (initialize_database false 0 emptyDB).2.hymns.length ∧
      10 ≤ (initialize_database false 0 emptyDB).2.categories.length ∧
      (get_hymn_by_number false 1 (initialize_database false 0 emptyDB).2).map
        (fun v => v.hymn.title) = some "Holy, Holy, Holy") ∧
    (db.fileExists = true →
      (initialize_database false now db).1 = true ∧
      (initialize_database false now db).2.hymns = db.hymns ∧
      (initialize_database false now db).2.categories = db.categories ∧
      (initialize_database false now db).2.settings = db.settings) ∧
    initialize_database true now db = (false, { db with fileExists := true }) := by
  refine ⟨⟨rfl, by decide, by decide, rfl⟩, fun hfe => ?_, rfl⟩
  have hrun : initialize_database false now db
      = (true, execSchema now { db with fileExists := true }) := by
    unfold initialize_database
    rw [if_neg Bool.false_ne_true, hfe]
    rfl
  have hp := execSchema_preserves now { db with fileExists := true }
  rw [hrun]
  exact ⟨rfl, hp.1, hp.2.1, hp.2.2⟩

/-- Witness for C6's subsequent-run clause at the concrete existing
state. -/
theorem initialize_database_spec_witness :
    (initialize_database false 3 witnessDB).1 = true ∧
    (initialize_database false 3 witnessDB).2.hymns = witnessDB.hymns ∧
    (initialize_database false 3 witnessDB).2.categories = witnessDB.categories ∧
    (initialize_database false 3 witnessDB).2.settings = witnessDB.settings :=
  (initialize_database_spec witnessDB 3).2.1 (by decide)

/-! ### C7 -/

/-- Distinct keys make the key function injective on the list's
elements. -/
theorem inj_on_of_map_nodup {α β : Type} (f : α → β) :
    ∀ (l : List α), (l.map f).Nodup →
      ∀ a ∈ l, ∀ b ∈ l, f a = f b → a = b := by
  intro l hn
  induction l with
  | nil => intro a ha; cases ha
  | cons c t ih =>
    simp only [List.map_cons, List.nodup_cons] at hn
    intro a ha b hb hf
    rcases List.mem_cons.mp ha with rfl | hat <;> rcases List.mem_cons.mp hb with rfl | hbt
    · rfl
    · exact absurd (hf ▸ List.mem_map_of_mem f hbt) hn.1
    · exact absurd (hf ▸ List.mem_map_of_mem f hat) (fun hc => hn.1 hc)
    · exact ih hn.2 a hat b hbt hf

/-- The `hymns_ai` / `hymns_ad` / `hymns_au` triggers keep the FTS table
exactly mirroring the hymns table. -/
def ftsInSync (db : DB) : Prop := db.hymns_fts = db.hymns.map hymnToFts

/-- C7: `search_hymns` is backed by the FTS index: a malformed `MATCH`
query (one that fails to parse) yields `[]` without raising; the result is
always ordered by hymn number ascending; with the index in sync and ids
unique, every returned row is a hymn of the table whose indexed columns
(title, verses, author, composer) match the parsed query; and when no FTS
row matches, the result is empty. -/
theorem search_hymns_spec (db : DB) (query : String) :
    (∀ e, ftsParseQuery query = .error e → search_hymns false query db = []) ∧
    List.Sorted HymnView.numLE (search_hymns false query db) ∧
    (∀ ts, ftsParseQuery query = .ok ts → ftsInSync db →
      (db.hymns.map (fun h => h.id)).Nodup →
      ∀ v ∈ search_hymns false query db,
        v.hymn ∈ db.hymns ∧ ftsRowMatch ts (hymnToFts v.hymn) = true) ∧
    (∀ ts, ftsParseQuery query = .ok ts →
      (∀ f ∈ db.hymns_fts, ftsRowMatch ts f = false) →
      search_hymns false query db = []) := by
  have herr : ∀ e, ftsParseQuery query = .error e →
      search_hymns false query db = [] := by
    intro e he
    unfold search_hymns
    rw [if_neg Bool.false_ne_true, he]
  have hok : ∀ ts, ftsParseQuery query = .ok ts →
      search_hymns false query db
        = List.insertionSort HymnView.numLE
            ((joinHymns db).filter (fun v =>
              ((db.hymns_fts.filter (ftsRowMatch ts)).map (fun r => r.rowid)).contains
                v.hymn.id)) := by
    intro ts hts
    unfold search_hymns
    rw [if_neg Bool.false_ne_true, hts]
  refine ⟨herr, ?_, ?_, ?_⟩
  · cases hq : ftsParseQuery query with
    | error e =>
      rw [herr e hq]
      exact List.sorted_nil
    | ok ts =>
      rw [hok ts hq]
      exact List.sorted_insertionSort _ _
  · intro ts hts hsync hnodup v hv
    rw [hok ts hts] at hv
    have hv2 := (List.mem_insertionSort _).mp hv
    have hv3 := List.mem_of_mem_filter hv2
    have hv4 := List.of_mem_filter hv2
    obtain ⟨h, hh, hveq⟩ := List.mem_map.mp hv3
    have hhymn : v.hymn = h := by rw [← hveq]
    refine ⟨hhymn ▸ hh, ?_⟩
    have hcontains := List.contains_iff_exists_mem_beq.mp hv4
    obtain ⟨rid, hrid, hbeq⟩ := hcontains
    obtain ⟨f, hf, hfrid⟩ := List.mem_map.mp hrid
    have hfmem := List.mem_of_mem_filter hf
    have hfmatch := List.of_mem_filter hf
    rw [ftsInSync] at hsync
    rw [hsync] at hfmem
    obtain ⟨h2, hh2, hfeq⟩ := List.mem_map.mp hfmem
    have hid : h2.id = v.hymn.id := by
      have hb : v.hymn.id = rid := eq_of_beq hbeq
      have hfr : f.rowid = h2.id := by
        rw [← hfeq]
        rfl
      rw [← hfr, hfrid]
      exact hb.symm
    have hheq : h2 = v.hymn := inj_on_of_map_nodup _ db.hymns hnodup h2 hh2
      v.hymn (hhymn ▸ hh) hid
    rw [← hfeq, hheq] at hfmatch
    exact hfmatch
  · intro ts hts hnone
    rw [hok ts hts]
    have hfilter : db.hymns_fts.filter (ftsRowMatch ts) = [] :=
      List.filter_eq_nil_iff.mpr (fun f hf => by rw [hnone f hf]; simp)
    rw [hfilter]
    have : (joinHymns db).filter (fun v =>
        (([] : List FtsRow).map (fun r => r.rowid)).contains v.hymn.id) = [] := by
      simp
    rw [this]
    rfl

/-- The result row of searching `holy` on the concrete state. -/
def holyView : HymnView := ⟨holyHymn, some "Worship and Praise"⟩

/-- Witness for C7 on the concrete state: the malformed query `ho)ly`
returns `[]`, the result of `holy` is number-sorted and its row (the one
hymn) matches the query on the indexed columns, and a query matching
nothing returns `[]`. -/
theorem search_hymns_spec_witness :
    search_hymns false "ho)ly" witnessDB = [] ∧
    List.Sorted HymnView.numLE (search_hymns false "holy" witnessDB) ∧
    (holyView.hymn ∈ witnessDB.hymns ∧
      ftsRowMatch ["holy"] (hymnToFts holyView.hymn) = true) ∧
    search_hymns false "zzz" witnessDB = [] := by
  have h1 := search_hymns_spec witnessDB "ho)ly"
  have h2 := search_hymns_spec witnessDB "holy"
  have h3 := search_hymns_spec witnessDB "zzz"
  refine ⟨h1.1 .ftsSyntaxError (by rfl), h2.2.1,
    h2.2.2.1 ["holy"] (by rfl) (by rfl) (by decide) holyView (by decide),
    h3.2.2.2 ["zzz"] (by rfl) (by decide)⟩

end ChristInSong
